import Mathlib

/-!
Verification of the battery-dispatch optimizer (`optimizer.py`, `main.py`).

The program assembles a mixed-integer linear program with cvxpy: per-timestep
charge/discharge/grid-import/grid-export variables, a state-of-charge chain, a
peak-import scalar `M`, binary mode flags `y`, the constraint list built in
`Optimizer.build_model`, and the linear objective; `Optimizer.solve` checks the
solver status and extracts a rounded dispatch schedule.

We embed the numeric content over `ℚ`: a variable assignment is a record of
functions, the constraint list becomes a `Prop`-valued structure `Feasible`
with one field per constraint family in `build_model`, the objective is a
`Finset` sum, and the status check plus rounding chain of `solve` become
computable functions (`np.round` rounds half to even, modelled by `rhe`).
Time-of-day values are minutes after midnight, order-isomorphic to the
`datetime.time` comparisons used by the code.
-/

namespace Qcells

/-- Battery capacity in kWh: `self.battery_capacity = 53.0` in `Optimizer.__init__`. -/
def battery_capacity : ℚ := 53

/-- Power limit in kW: `self.max_power = 25.0`. -/
def max_power : ℚ := 25

/-- Charge efficiency: `self.eta_charge = 0.95`. -/
def eta_charge : ℚ := 0.95

/-- Discharge efficiency: `self.eta_discharge = 0.95`. -/
def eta_discharge : ℚ := 0.95

/-- Timestep duration in hours: `self.delta_t = 0.5`. -/
def delta_t : ℚ := 0.5

/-- The `prices` dictionary passed to `Optimizer.__init__`. Window boundaries
are time-of-day values in minutes after midnight (the code parses strings like
"17:00" to `datetime.time`; minute counts carry the same order). -/
structure Prices where
  (import_cost : ℚ)
  export_revenue : ℚ
  demand_charge : ℚ
  demand_response_revenue : ℚ
  demand_charge_start : ℕ
  demand_charge_end : ℕ
  demand_response_start : ℕ
  demand_response_end : ℕ

/-- Membership mask of the demand-charge window:
`(time_of_day >= demand_charge_start) & (time_of_day < demand_charge_end)`. -/
def inDemandWindow (p : Prices) (m : ℕ) : Bool :=
  decide (p.demand_charge_start ≤ m ∧ m < p.demand_charge_end)

/-- Membership mask of the demand-response window:
`(time_of_day >= demand_response_start) & (time_of_day < demand_response_end)`. -/
def inDrWindow (p : Prices) (m : ℕ) : Bool :=
  decide (p.demand_response_start ≤ m ∧ m < p.demand_response_end)

/-- Timesteps that receive a `M >= p_gridimport[t]` constraint: `build_model`
iterates `for t in range(self.T)` and adds the constraint `if in_demand_window[t]`. -/
def demandTimes (p : Prices) (T : ℕ) (tod : ℕ → ℕ) : List ℕ :=
  (List.range T).filter (fun t => inDemandWindow p (tod t))

/-- A value for every decision variable of `build_model`: `p_charge`,
`p_discharge`, `p_gridimport`, `p_gridexport` (length `T`), `soc`
(length `T+1`), the scalar `M` and the binary vector `y`. -/
structure Assign where
  charge : ℕ → ℚ
  discharge : ℕ → ℚ
  gridimport : ℕ → ℚ
  gridexport : ℕ → ℚ
  soc : ℕ → ℚ
  M : ℚ
  y : ℕ → ℚ

/-- Maximum of `f 0, …, f (T-1)`; `np.max` over the data array (defined on
nonempty arrays, so intended for `T ≥ 1`). -/
def maxOver (f : ℕ → ℚ) (T : ℕ) : ℚ :=
  ((List.range T).map f).foldr max (f 0)

/-- The big-M constant of `build_model`:
`M_val = max(np.max(load_data), np.max(pv_data), max_power) * 10`. -/
def MVal (load pv : ℕ → ℚ) (T : ℕ) : ℚ :=
  max (max (maxOver load T) (maxOver pv T)) max_power * 10

/-- Satisfaction of the constraint list assembled by `Optimizer.build_model`,
one field per constraint family, in source order.  The `nonneg` fields come
from `cp.Variable(..., nonneg=True)`, `y_binary` from `boolean=True`. -/
structure Feasible (p : Prices) (T : ℕ) (load pv : ℕ → ℚ) (tod : ℕ → ℕ)
    (x : Assign) : Prop where
  charge_nonneg : ∀ t, t < T → 0 ≤ x.charge t
  discharge_nonneg : ∀ t, t < T → 0 ≤ x.discharge t
  gridimport_nonneg : ∀ t, t < T → 0 ≤ x.gridimport t
  gridexport_nonneg : ∀ t, t < T → 0 ≤ x.gridexport t
  M_nonneg : 0 ≤ x.M
  y_binary : ∀ t, t < T → x.y t = 0 ∨ x.y t = 1
  soc_init : x.soc 0 = 0
  soc_dyn : ∀ t, t < T → x.soc (t + 1) =
    x.soc t + eta_charge * x.charge t * delta_t - x.discharge t * delta_t / eta_discharge
  soc_ub : ∀ t, t < T → x.soc (t + 1) ≤ battery_capacity
  soc_lb : ∀ t, t < T → 0 ≤ x.soc (t + 1)
  soc_final : x.soc T = 0
  charge_cap : ∀ t, t < T → x.charge t ≤ max_power
  discharge_cap : ∀ t, t < T → x.discharge t ≤ max_power
  charge_pv : ∀ t, t < T → x.charge t ≤ pv t
  balance : ∀ t, t < T →
    x.gridimport t - x.gridexport t = load t - pv t + x.charge t - x.discharge t
  demand_peak : ∀ t, t < T → inDemandWindow p (tod t) = true → x.gridimport t ≤ x.M
  bigM_import : ∀ t, t < T → x.gridimport t ≤ MVal load pv T * x.y t
  bigM_export : ∀ t, t < T → x.gridexport t ≤ MVal load pv T * (1 - x.y t)

/-- Per-timestep export price used in the objective:
`export_revenue_array = np.full(T, export_revenue)` followed by
`export_revenue_array[in_dr_window] += demand_response_revenue`. -/
def exportPrice (p : Prices) (m : ℕ) : ℚ :=
  p.export_revenue + (if inDrWindow p m then p.demand_response_revenue else 0)

/-- The minimized objective of `build_model`:
`import_cost + demand_charge_cost - export_revenue_term`. -/
def objective (p : Prices) (T : ℕ) (tod : ℕ → ℕ) (x : Assign) : ℚ :=
  p.import_cost * (∑ t ∈ Finset.range T, x.gridimport t * delta_t)
    + p.demand_charge * x.M
    - ∑ t ∈ Finset.range T, exportPrice p (tod t) * x.gridexport t * delta_t

/-- The immutable program snapshot stored in `self.prob`: horizon, the
demand-window constraint sites, the big-M constant, the feasible set and the
objective. -/
structure Program where
  T : ℕ
  demandTimes : List ℕ
  bigM : ℚ
  feasible : Assign → Prop
  obj : Assign → ℚ

/-- What `Optimizer.build_model` assembles, as a total function of its inputs;
the code performs no validation of any input before or during assembly. -/
def buildModel (p : Prices) (T : ℕ) (load pv : ℕ → ℚ) (tod : ℕ → ℕ) : Program :=
  ⟨T, demandTimes p T tod, MVal load pv T,
    Feasible p T load pv tod, objective p T tod⟩

/-- A feasible assignment that minimizes the objective among all feasible
assignments of the same built program. -/
def Optimal (p : Prices) (T : ℕ) (load pv : ℕ → ℚ) (tod : ℕ → ℕ) (x : Assign) : Prop :=
  Feasible p T load pv tod x ∧
    ∀ z, Feasible p T load pv tod z → objective p T tod x ≤ objective p T tod z

/-- Peak grid import over the demand-charge window (0 when the window holds no
timestep); with nonnegative imports this is the maximum the claim speaks of. -/
def windowPeak (p : Prices) (T : ℕ) (tod : ℕ → ℕ) (x : Assign) : ℚ :=
  ((demandTimes p T tod).map x.gridimport).foldr max 0

/-- Floor of a rational. -/
def rfloor (x : ℚ) : ℤ := ⌊x⌋

/-- Round a rational to the nearest integer, ties to even — the rounding rule
of `np.round`. -/
def rhe (x : ℚ) : ℤ :=
  if x - rfloor x < 1 / 2 then rfloor x
  else if 1 / 2 < x - rfloor x then rfloor x + 1
  else if rfloor x % 2 = 0 then rfloor x else rfloor x + 1

/-- Round to 3 decimal places: `np.round(x, 3)`. -/
def round3 (x : ℚ) : ℚ := (rhe (x * 1000) : ℚ) / 1000

/-- The dictionary returned by `Optimizer.solve` on the success path. -/
structure Schedule where
  battery_power : ℕ → ℚ
  meter : ℕ → ℚ

/-- Result extraction inside `Optimizer.solve`: each variable array is rounded
to 3 decimals first (`p_charge_val = np.round(self.p_charge.value, 3)`, …),
then `battery_power = np.round(p_discharge_val - p_charge_val, 3)` and
`meter = np.round(p_gridimport_val - p_gridexport_val, 3)`. -/
def extractResults (c d gi ge : ℕ → ℚ) : Schedule :=
  ⟨fun t => round3 (round3 (d t) - round3 (c t)),
   fun t => round3 (round3 (gi t) - round3 (ge t))⟩

/-- The status branch of `Optimizer.solve`: extraction runs whenever
`self.prob.status not in ["infeasible", "unbounded"]`, otherwise a
`ValueError` carrying the raw status is raised. -/
def solveReturn (status : String) (c d gi ge : ℕ → ℚ) : Except String Schedule :=
  if status = "infeasible" ∨ status = "unbounded" then
    Except.error ("Problem not solvable. Status: " ++ status)
  else
    Except.ok (extractResults c d gi ge)

/-- The battery parameters fixed by `Optimizer.__init__`. -/
structure BatteryParams where
  battery_capacity : ℚ
  max_power : ℚ
  eta_charge : ℚ
  eta_discharge : ℚ
  delta_t : ℚ

/-- What `Optimizer.__init__` assigns to the battery fields, as a function of
everything the constructor receives: each field is a hard-coded literal. -/
def initParams (load_data pv_data : List ℚ) (prices : Prices) : BatteryParams :=
  ⟨53, 25, 0.95, 0.95, 0.5⟩

/-! Concrete instances used to exercise the theorems. `p0` is the `prices`
dictionary of `main.py` with the four boundary strings converted to minutes
(17:00 → 1020, 21:00 → 1260, 19:00 → 1140, 20:00 → 1200). -/

/-- The price configuration hard-coded in `main.py:run_optimization`. -/
def p0 : Prices := ⟨0.1, 0.03, 9, 10, 1020, 1260, 1140, 1200⟩

/-- A degenerate configuration whose demand-charge window boundaries resolve to
`end < start` (start 21:00, end 17:00). -/
def badPrices : Prices := ⟨0.1, 0.03, 9, 10, 1260, 1020, 1140, 1200⟩

/-- The all-zero data series. -/
def zfun : ℕ → ℚ := fun _ => 0

/-- A time index whose every timestamp has time-of-day midnight. -/
def ztod : ℕ → ℕ := fun _ => 0

/-- The all-zero variable assignment. -/
def zeroAssign : Assign := ⟨zfun, zfun, zfun, zfun, zfun, 0, zfun⟩

/-- With any prices, the all-zero assignment satisfies every constraint of the
horizon-1 model over all-zero load and PV data. -/
lemma zero_feasible (p : Prices) : Feasible p 1 zfun zfun ztod zeroAssign := by
  refine ⟨?_, ?_, ?_, ?_, ?_, ?_, ?_, ?_, ?_, ?_, ?_, ?_, ?_, ?_, ?_, ?_, ?_, ?_⟩ <;>
    intros <;>
    simp [zeroAssign, zfun, ztod, MVal, maxOver, eta_charge, eta_discharge, delta_t,
      battery_capacity, max_power]

/-- Claim C1: for every horizon `T ≥ 1`, every feasible assignment of the
program built by `build_model` satisfies the SOC dynamics
`soc[t+1] = soc[t] + η_c·charge[t]·Δt − discharge[t]·Δt/η_d` with
`0 ≤ soc[t+1] ≤ capacity` for every `t < T`, the boundary conditions
`soc[0] = 0` and `soc[T] = 0`, and hence `0 ≤ soc[t] ≤ capacity` for every
`t ≤ T` (full-cycle invariant). -/
theorem soc_fullCycle_invariant (p : Prices) (T : ℕ) (load pv : ℕ → ℚ)
    (tod : ℕ → ℕ) (x : Assign) (hT : 1 ≤ T)
    (hf : (buildModel p T load pv tod).feasible x) :
    (∀ t, t < T → x.soc (t + 1) =
        x.soc t + eta_charge * x.charge t * delta_t - x.discharge t * delta_t / eta_discharge
      ∧ 0 ≤ x.soc (t + 1) ∧ x.soc (t + 1) ≤ battery_capacity)
    ∧ x.soc 0 = 0 ∧ x.soc T = 0
    ∧ ∀ t, t ≤ T → 0 ≤ x.soc t ∧ x.soc t ≤ battery_capacity := by
  have h : Feasible p T load pv tod x := hf
  refine ⟨fun t ht => ⟨h.soc_dyn t ht, h.soc_lb t ht, h.soc_ub t ht⟩,
    h.soc_init, h.soc_final, ?_⟩
  intro t ht
  cases t with
  | zero => rw [h.soc_init]; norm_num [battery_capacity]
  | succ s => exact ⟨h.soc_lb s (by omega), h.soc_ub s (by omega)⟩

/-- Claim C1 witness at the horizon-1 all-zero instance. -/
theorem soc_fullCycle_invariant_witness :
    zeroAssign.soc 0 = 0 ∧ zeroAssign.soc 1 = 0 ∧
      0 ≤ zeroAssign.soc 1 ∧ zeroAssign.soc 1 ≤ battery_capacity := by
  have h := soc_fullCycle_invariant p0 1 zfun zfun ztod zeroAssign (le_refl 1)
    (zero_feasible p0)
  exact ⟨h.2.1, h.2.2.1, (h.2.2.2 1 (le_refl 1)).1, (h.2.2.2 1 (le_refl 1)).2⟩

/-- Claim C2: the program carries, for every `t < T`, the big-M constraints
`import_part[t] ≤ BIG_M·mode[t]` and `export_part[t] ≤ BIG_M·(1−mode[t])` with
binary `mode[t]` and `BIG_M = 10·max(max(load), max(PV), max_power)`; in every
feasible assignment grid import and export are never both positive in the same
timestep. -/
theorem bigM_exclusivity (p : Prices) (T : ℕ) (load pv : ℕ → ℚ) (tod : ℕ → ℕ)
    (x : Assign) (hf : Feasible p T load pv tod x) :
    MVal load pv T = 10 * max (max (maxOver load T) (maxOver pv T)) max_power
    ∧ (∀ t, t < T → x.y t = 0 ∨ x.y t = 1)
    ∧ (∀ t, t < T → x.gridimport t ≤ MVal load pv T * x.y t
        ∧ x.gridexport t ≤ MVal load pv T * (1 - x.y t))
    ∧ ∀ t, t < T → x.gridimport t = 0 ∨ x.gridexport t = 0 := by
  refine ⟨by rw [MVal]; ring, hf.y_binary,
    fun t ht => ⟨hf.bigM_import t ht, hf.bigM_export t ht⟩, ?_⟩
  intro t ht
  rcases hf.y_binary t ht with h0 | h1
  · left
    have hb := hf.bigM_import t ht
    rw [h0, mul_zero] at hb
    exact le_antisymm hb (hf.gridimport_nonneg t ht)
  · right
    have hb := hf.bigM_export t ht
    rw [h1] at hb
    norm_num at hb
    exact le_antisymm hb (hf.gridexport_nonneg t ht)

/-- Claim C2 witness at the horizon-1 all-zero instance. -/
theorem bigM_exclusivity_witness :
    zeroAssign.gridimport 0 = 0 ∨ zeroAssign.gridexport 0 = 0 :=
  (bigM_exclusivity p0 1 zfun zfun ztod zeroAssign (zero_feasible p0)).2.2.2 0
    (by norm_num)

/-- Claim C5: every feasible assignment satisfies the meter energy balance
`load[t] − PV[t] + charge[t] − discharge[t] = import_part[t] − export_part[t]`
for every `t < T`. -/
theorem energy_balance (p : Prices) (T : ℕ) (load pv : ℕ → ℚ) (tod : ℕ → ℕ)
    (x : Assign) (hf : Feasible p T load pv tod x) :
    ∀ t, t < T →
      load t - pv t + x.charge t - x.discharge t = x.gridimport t - x.gridexport t :=
  fun t ht => (hf.balance t ht).symm

/-- Claim C5 witness at the horizon-1 all-zero instance. -/
theorem energy_balance_witness :
    zfun 0 - zfun 0 + zeroAssign.charge 0 - zeroAssign.discharge 0
      = zeroAssign.gridimport 0 - zeroAssign.gridexport 0 :=
  energy_balance p0 1 zfun zfun ztod zeroAssign (zero_feasible p0) 0 (by norm_num)

/-- Claim C6: every feasible assignment satisfies
`0 ≤ charge[t] ≤ min(max_power, PV[t])` and `0 ≤ discharge[t] ≤ max_power`
for every `t < T`; in particular the battery never charges beyond the PV
production of the timestep. -/
theorem power_caps (p : Prices) (T : ℕ) (load pv : ℕ → ℚ) (tod : ℕ → ℕ)
    (x : Assign) (hf : Feasible p T load pv tod x) :
    ∀ t, t < T → (0 ≤ x.charge t ∧ x.charge t ≤ min max_power (pv t))
      ∧ (0 ≤ x.discharge t ∧ x.discharge t ≤ max_power) :=
  fun t ht =>
    ⟨⟨hf.charge_nonneg t ht, le_min (hf.charge_cap t ht) (hf.charge_pv t ht)⟩,
     hf.discharge_nonneg t ht, hf.discharge_cap t ht⟩

/-- Claim C6 witness at the horizon-1 all-zero instance. -/
theorem power_caps_witness :
    0 ≤ zeroAssign.charge 0 ∧ zeroAssign.charge 0 ≤ min max_power (zfun 0) :=
  (power_caps p0 1 zfun zfun ztod zeroAssign (zero_feasible p0) 0 (by norm_num)).1

/-- Claim C4: the minimized objective is exactly
`import_cost·Σ(import_part[t]·Δt) + demand_charge·M − Σ(export_price[t]·export_part[t]·Δt)`
where `export_price[t]` is `export_revenue + demand_response_revenue` inside
the demand-response window and `export_revenue` outside it (additive stacking,
not replacement). -/
theorem objective_formula (p : Prices) (T : ℕ) (tod : ℕ → ℕ) (x : Assign) :
    objective p T tod x =
      p.import_cost * (∑ t ∈ Finset.range T, x.gridimport t * delta_t)
        + p.demand_charge * x.M
        - ∑ t ∈ Finset.range T,
            (if inDrWindow p (tod t) = true then
              p.export_revenue + p.demand_response_revenue
            else p.export_revenue) * x.gridexport t * delta_t := by
  unfold objective exportPrice
  congr 1
  refine Finset.sum_congr rfl fun t _ => ?_
  by_cases h : inDrWindow p (tod t) <;> simp [h]

/-- Claim C10: the battery parameters assigned by the constructor are the fixed
literals capacity 53 kWh, power limit 25 kW, efficiencies 0.95, timestep 0.5 h,
for every possible input; no configuration option reaches them. -/
theorem fixed_battery_params (load_data pv_data : List ℚ) (prices : Prices) :
    initParams load_data pv_data prices
        = ⟨battery_capacity, max_power, eta_charge, eta_discharge, delta_t⟩
      ∧ (initParams load_data pv_data prices).battery_capacity = 53
      ∧ (initParams load_data pv_data prices).max_power = 25
      ∧ (initParams load_data pv_data prices).eta_charge = 0.95
      ∧ (initParams load_data pv_data prices).eta_discharge = 0.95
      ∧ (initParams load_data pv_data prices).delta_t = 0.5
      ∧ ∀ (l2 p2 : List ℚ) (pr2 : Prices),
          initParams load_data pv_data prices = initParams l2 p2 pr2 :=
  ⟨rfl, rfl, rfl, rfl, rfl, rfl, fun _ _ _ => rfl⟩

/-- Claim C7 counterexample: the other-failure status `"solver_error"` is not
`"optimal"`, yet `solve` does not raise on it — the status check only catches
`"infeasible"` and `"unbounded"`, so extraction runs and a schedule is
returned. -/
theorem solve_status_counterexample :
    ("solver_error" : String) ≠ "optimal"
      ∧ (solveReturn "solver_error" zfun zfun zfun zfun).isOk = true := by
  exact ⟨by decide, rfl⟩

/-- Claim C7 amended: `solve` raises the "Problem not solvable" failure
carrying the raw status exactly when the status is `"infeasible"` or
`"unbounded"`; under every other status (including other-failure statuses)
result extraction is performed and a schedule is returned. -/
theorem solve_status_amended (status : String) (c d gi ge : ℕ → ℚ) :
    ((solveReturn status c d gi ge).isOk = false
        ↔ (status = "infeasible" ∨ status = "unbounded"))
    ∧ solveReturn "infeasible" c d gi ge
        = Except.error "Problem not solvable. Status: infeasible"
    ∧ solveReturn "unbounded" c d gi ge
        = Except.error "Problem not solvable. Status: unbounded" := by
  refine ⟨?_, rfl, rfl⟩
  unfold solveReturn
  by_cases h : status = "infeasible" ∨ status = "unbounded" <;>
    simp [h, Except.isOk, Except.toBool]

/-- Claim C8 counterexample: with demand-window boundaries 21:00 and 17:00
(`end < start`), no validation fires: `build_model` silently assembles the
complete horizon-1 program, its demand-charge constraint list is empty, and
its feasible set is inhabited (the all-zero assignment satisfies it). -/
theorem window_validation_counterexample :
    (buildModel badPrices 1 zfun zfun ztod).demandTimes = []
      ∧ (buildModel badPrices 1 zfun zfun ztod).T = 1
      ∧ (buildModel badPrices 1 zfun zfun ztod).feasible zeroAssign :=
  ⟨rfl, rfl, zero_feasible badPrices⟩

/-- Claim C8 amended: the code contains no validation step; whenever the
demand-window boundaries resolve to `end ≤ start`, every timestamp is outside
the window, so the window is silently treated as empty — no timestep receives
a peak constraint — and `build_model` still assembles the full program. -/
theorem empty_window_amended (p : Prices) (T : ℕ) (load pv : ℕ → ℚ)
    (tod : ℕ → ℕ) (h : p.demand_charge_end ≤ p.demand_charge_start) :
    (∀ m, inDemandWindow p m = false)
      ∧ (buildModel p T load pv tod).demandTimes = []
      ∧ (buildModel p T load pv tod).T = T := by
  have hw : ∀ m, inDemandWindow p m = false := by
    intro m
    unfold inDemandWindow
    simp only [decide_eq_false_iff_not]
    rintro ⟨h1, h2⟩
    omega
  refine ⟨hw, ?_, rfl⟩
  show demandTimes p T tod = []
  simp [demandTimes, hw]

/-- Claim C8 amended witness at the degenerate configuration. -/
theorem empty_window_amended_witness :
    (buildModel badPrices 1 zfun zfun ztod).demandTimes = [] :=
  (empty_window_amended badPrices 1 zfun zfun ztod (by norm_num [badPrices])).2.1

/-- Evaluation of `rhe` when the fractional part is below one half. -/
lemma rhe_of_lt {x : ℚ} {f : ℤ} (hf : ⌊x⌋ = f) (h : x - (f : ℚ) < 1 / 2) :
    rhe x = f := by
  unfold rhe rfloor
  rw [hf, if_pos h]

/-- Evaluation of `rhe` when the fractional part is above one half. -/
lemma rhe_of_gt {x : ℚ} {f : ℤ} (hf : ⌊x⌋ = f) (h1 : ¬x - (f : ℚ) < 1 / 2)
    (h2 : 1 / 2 < x - (f : ℚ)) : rhe x = f + 1 := by
  unfold rhe rfloor
  rw [hf, if_neg h1, if_pos h2]

/-- Evaluation of `round3` at 0.0014. -/
lemma round3_of_14over10000 : round3 ((7 : ℚ) / 5000) = 1 / 1000 := by
  have hx : ((7 : ℚ) / 5000) * 1000 = 7 / 5 := by norm_num
  have hf : ⌊(7 : ℚ) / 5⌋ = 1 := by rw [Int.floor_eq_iff]; norm_num
  unfold round3
  rw [hx, rhe_of_lt hf (by norm_num)]
  norm_num

/-- Evaluation of `round3` at 0.0006. -/
lemma round3_of_6over10000 : round3 ((3 : ℚ) / 5000) = 1 / 1000 := by
  have hx : ((3 : ℚ) / 5000) * 1000 = 3 / 5 := by norm_num
  have hf : ⌊(3 : ℚ) / 5⌋ = 0 := by rw [Int.floor_eq_iff]; norm_num
  unfold round3
  rw [hx, rhe_of_gt hf (by norm_num) (by norm_num)]
  norm_num

/-- Evaluation of `round3` at 0. -/
lemma round3_of_zero : round3 (0 : ℚ) = 0 := by
  have hf : ⌊(0 : ℚ)⌋ = 0 := Int.floor_zero
  unfold round3
  rw [zero_mul, rhe_of_lt hf (by norm_num)]
  norm_num

/-- Evaluation of `round3` at 0.0008. -/
lemma round3_of_8over10000 : round3 ((7 : ℚ) / 5000 - 3 / 5000) = 1 / 1000 := by
  have hx : ((7 : ℚ) / 5000 - 3 / 5000) * 1000 = 4 / 5 := by norm_num
  have hf : ⌊(4 : ℚ) / 5⌋ = 0 := by rw [Int.floor_eq_iff]; norm_num
  unfold round3
  rw [hx, rhe_of_gt hf (by norm_num) (by norm_num)]
  norm_num

/-- Claim C9 counterexample: with discharge 0.0014 and charge 0.0006, the
extracted battery power is `round3(round3(0.0014) − round3(0.0006)) = 0`,
but the claim's formula `round3(discharge − charge) = round3(0.0008)` gives
`0.001`: the code rounds each variable before forming the difference. -/
theorem rounding_counterexample :
    (extractResults (fun _ => 3 / 5000) (fun _ => 7 / 5000) zfun zfun).battery_power 0
      ≠ round3 ((7 : ℚ) / 5000 - 3 / 5000) := by
  have h1 : (extractResults (fun _ => 3 / 5000) (fun _ => 7 / 5000) zfun
      zfun).battery_power 0 = 0 := by
    show round3 (round3 ((7 : ℚ) / 5000) - round3 ((3 : ℚ) / 5000)) = 0
    rw [round3_of_14over10000, round3_of_6over10000, sub_self, round3_of_zero]
  rw [h1, round3_of_8over10000]
  norm_num

/-- Claim C9 amended: on every status that passes the check, the returned
schedule satisfies `battery_power[t] = round3(round3(discharge[t]) − round3(charge[t]))`
and `meter[t] = round3(round3(import_part[t]) − round3(export_part[t]))`: each
variable array is rounded to 3 decimals first and the difference is rounded
again, which can differ from rounding applied only after the difference. -/
theorem rounding_amended (c d gi ge : ℕ → ℚ) :
    solveReturn "optimal" c d gi ge
      = Except.ok ⟨fun t => round3 (round3 (d t) - round3 (c t)),
          fun t => round3 (round3 (gi t) - round3 (ge t))⟩ := by
  rfl

/-- The seed of a `foldr max` is a lower bound of the fold. -/
lemma le_foldr_max_init (b : ℚ) (l : List ℚ) : b ≤ l.foldr max b := by
  induction l with
  | nil => exact le_refl b
  | cons a l ih => exact le_trans ih (le_max_right a _)

/-- Every member of the list is a lower bound of its `foldr max`. -/
lemma le_foldr_max_of_mem {a b : ℚ} {l : List ℚ} (ha : a ∈ l) :
    a ≤ l.foldr max b := by
  induction l with
  | nil => cases ha
  | cons c l ih =>
    rcases List.mem_cons.mp ha with h | h
    · rw [h]; exact le_max_left c _
    · exact le_trans (ih h) (le_max_right c _)

/-- An upper bound of the seed and of every member bounds the `foldr max`. -/
lemma foldr_max_le {b u : ℚ} {l : List ℚ} (hb : b ≤ u) (h : ∀ a ∈ l, a ≤ u) :
    l.foldr max b ≤ u := by
  induction l with
  | nil => exact hb
  | cons a l ih =>
    exact max_le (h a (List.mem_cons_self a l))
      (ih fun a2 ha2 => h a2 (List.mem_cons_of_mem _ ha2))

/-- Claim C3: the peak constraint `M ≥ import_part[t]` is imposed exactly at
the timesteps whose time-of-day lies in the half-open demand-charge window,
`M ≥ 0` always holds, and in every optimal solution with a positive
demand-charge rate `M` equals the maximum grid import over the window
(0 when the window holds no timestep). -/
theorem demand_peak_tracking (p : Prices) (T : ℕ) (load pv : ℕ → ℚ)
    (tod : ℕ → ℕ) (x : Assign) (hopt : Optimal p T load pv tod x)
    (hdc : 0 < p.demand_charge) :
    (∀ t, t ∈ demandTimes p T tod
        ↔ t < T ∧ p.demand_charge_start ≤ tod t ∧ tod t < p.demand_charge_end)
    ∧ (∀ t, t ∈ demandTimes p T tod → x.gridimport t ≤ x.M)
    ∧ 0 ≤ x.M
    ∧ x.M = windowPeak p T tod x := by
  obtain ⟨hf, hmin⟩ := hopt
  have hmem : ∀ t, t ∈ demandTimes p T tod
      ↔ t < T ∧ p.demand_charge_start ≤ tod t ∧ tod t < p.demand_charge_end := by
    intro t
    simp [demandTimes, List.mem_filter, List.mem_range, inDemandWindow,
      decide_eq_true_eq]
  have hMi : ∀ t, t ∈ demandTimes p T tod → x.gridimport t ≤ x.M := by
    intro t ht
    obtain ⟨htT, h1, h2⟩ := (hmem t).mp ht
    exact hf.demand_peak t htT (by simp [inDemandWindow, decide_eq_true_eq]; omega)
  have hge : windowPeak p T tod x ≤ x.M := by
    refine foldr_max_le hf.M_nonneg ?_
    intro a ha
    obtain ⟨t, htmem, rfl⟩ := List.mem_map.mp ha
    exact hMi t htmem
  have hle : x.M ≤ windowPeak p T tod x := by
    by_contra hlt
    push_neg at hlt
    have hpeak_nonneg : (0 : ℚ) ≤ windowPeak p T tod x := le_foldr_max_init 0 _
    have hpeak_bound : ∀ t, t < T → inDemandWindow p (tod t) = true →
        x.gridimport t ≤ windowPeak p T tod x := by
      intro t htT hw
      refine le_foldr_max_of_mem (List.mem_map.mpr ⟨t, ?_, rfl⟩)
      exact List.mem_filter.mpr ⟨List.mem_range.mpr htT, hw⟩
    have hfz : Feasible p T load pv tod
        ⟨x.charge, x.discharge, x.gridimport, x.gridexport, x.soc,
          windowPeak p T tod x, x.y⟩ :=
      ⟨hf.charge_nonneg, hf.discharge_nonneg, hf.gridimport_nonneg,
        hf.gridexport_nonneg, hpeak_nonneg, hf.y_binary, hf.soc_init, hf.soc_dyn,
        hf.soc_ub, hf.soc_lb, hf.soc_final, hf.charge_cap, hf.discharge_cap,
        hf.charge_pv, hf.balance, hpeak_bound, hf.bigM_import, hf.bigM_export⟩
    have hobj : objective p T tod
        ⟨x.charge, x.discharge, x.gridimport, x.gridexport, x.soc,
          windowPeak p T tod x, x.y⟩
        = objective p T tod x + p.demand_charge * (windowPeak p T tod x - x.M) := by
      show p.import_cost * (∑ t ∈ Finset.range T, x.gridimport t * delta_t)
          + p.demand_charge * windowPeak p T tod x
          - (∑ t ∈ Finset.range T, exportPrice p (tod t) * x.gridexport t * delta_t)
        = _
      unfold objective
      ring
    have hcmp := hmin _ hfz
    rw [hobj] at hcmp
    have hneg : p.demand_charge * (windowPeak p T tod x - x.M) < 0 :=
      mul_neg_of_pos_of_neg hdc (by linarith)
    linarith
  exact ⟨hmem, hMi, hf.M_nonneg, le_antisymm hle hge⟩

/-- Over the horizon-1 all-zero data, the all-zero assignment is globally
optimal for the `main.py` prices: feasibility forces charge, discharge, grid
flows all to 0, so every feasible objective is `9·M ≥ 0`. -/
lemma zero_optimal : Optimal p0 1 zfun zfun ztod zeroAssign := by
  refine ⟨zero_feasible p0, ?_⟩
  intro z hz
  have hobj0 : objective p0 1 ztod zeroAssign = 0 := by
    simp [objective, zeroAssign, zfun, p0, Finset.sum_range_one]
  have hc : z.charge 0 = 0 := by
    have h1 := hz.charge_pv 0 Nat.one_pos
    have h2 := hz.charge_nonneg 0 Nat.one_pos
    simp [zfun] at h1
    linarith
  have hd : z.discharge 0 = 0 := by
    have hdyn := hz.soc_dyn 0 Nat.one_pos
    have hi := hz.soc_init
    have hfin := hz.soc_final
    rw [hi, hc, hfin] at hdyn
    norm_num [eta_charge, eta_discharge, delta_t] at hdyn
    linarith
  have hbal := hz.balance 0 Nat.one_pos
  rw [hc, hd] at hbal
  simp [zfun] at hbal
  have hie : z.gridimport 0 = 0 ∧ z.gridexport 0 = 0 := by
    rcases hz.y_binary 0 Nat.one_pos with h0y | h1y
    · have hb := hz.bigM_import 0 Nat.one_pos
      rw [h0y, mul_zero] at hb
      have hi0 : z.gridimport 0 = 0 :=
        le_antisymm hb (hz.gridimport_nonneg 0 Nat.one_pos)
      exact ⟨hi0, by linarith⟩
    · have hb := hz.bigM_export 0 Nat.one_pos
      rw [h1y] at hb
      norm_num at hb
      have he0 : z.gridexport 0 = 0 :=
        le_antisymm hb (hz.gridexport_nonneg 0 Nat.one_pos)
      exact ⟨by linarith, he0⟩
  have hobjz : objective p0 1 ztod z = 9 * z.M := by
    simp [objective, Finset.sum_range_one, hie.1, hie.2, p0]
  rw [hobj0, hobjz]
  exact mul_nonneg (by norm_num) hz.M_nonneg

/-- Claim C3 witness at the horizon-1 all-zero instance, whose all-zero
assignment is optimal. -/
theorem demand_peak_tracking_witness :
    zeroAssign.M = windowPeak p0 1 ztod zeroAssign :=
  (demand_peak_tracking p0 1 zfun zfun ztod zeroAssign zero_optimal
    (by norm_num [p0])).2.2.2

end Qcells
